import Mathlib

/-!
# Verification of the wmbusmeters core against its specification

This file shallowly embeds the parts of the wmbusmeters core that the
specification's claims talk about, and proves (or refutes) each claim.

Sources available in the repository snapshot: `src/address.h` (the address
data model and the declarations of the selection engine),
`src/metermanager.cc` (the meter manager, embedded here faithfully), and
`src/testinternals.cc` (the internal test suite, whose expected values pin
the behaviour of the components whose implementation files are not part of
the snapshot).  Components with missing implementation files (the address
matcher in `address.cc`, the unit algebra in `units.cc`, SLIP framing,
month arithmetic and the formula engine) are modelled from the
specification text; every such definition is marked `Modelled from the
spec:` and is checked against the pinned expected values of
`testinternals.cc`.

Machine integers are modelled as `Nat`/`Int` with explicit range handling
where the code depends on it (the signed 8-bit exponents of `SIExp`).
Floating point scalars are modelled as `Rat`; every concrete value the
claims mention (273.15, 3.6e6, 5/9 ...) is exactly representable.
-/

namespace Wmbus

/-! ## Address data model (from `src/address.h`) -/

/-- An address extracted from a telegram (struct `Address`, address.h:46).
`id` is the 8-hex-digit identity (or `p0`..`p250`); `mfct` the packed
manufacturer triplet; `version` and `type` one byte each. -/
structure Address where
  id : String
  mfct : Nat
  version : Nat
  type : Nat
deriving DecidableEq, Repr

/-- A pattern selecting addresses (struct `AddressExpression`, address.h:60).
Wildcard fields: `mfct = 0xffff`, `version = 0xff`, `type = 0xff` match
anything; `has_wildcard` means `id` ends in `*`; `filter_out` negates. -/
structure AddressExpression where
  id : String
  has_wildcard : Bool
  mbus_primary : Bool
  mfct : Nat
  version : Nat
  type : Nat
  filter_out : Bool
  required : Bool
deriving DecidableEq, Repr

/-- Modelled from the spec: `AddressExpression::match` (declared
address.h:91, implementation file `address.cc` absent).  Spec section 4.1:
a match requires the id to match (prefix up to `*` when `has_wildcard`,
else exact equality) AND mfct wildcard-or-equal AND version
wildcard-or-equal AND type wildcard-or-equal. -/
def AddressExpression.matches (e : AddressExpression) (a : Address) : Bool :=
  (if e.has_wildcard then List.isPrefixOf e.id.data.dropLast a.id.data
   else e.id == a.id)
  && (e.mfct == 0xffff || e.mfct == a.mfct)
  && (e.version == 0xff || e.version == a.version)
  && (e.type == 0xff || e.type == a.type)

/-- Modelled from the spec: the per-address scan of the expression list
(the inner loop of `doesTelegramMatchExpressions`, `address.cc` absent).
Expressions are scanned in order; a matching `filter_out` expression
rejects this address immediately; a matching positive expression records
the match and whether it had a wildcard.  Returns
(address matched positively and was not filtered, a wildcard positive
expression matched, a filter expression matched). -/
def scanExpressions (a : Address) :
    List AddressExpression → Bool → Bool → Bool × Bool × Bool
  | [], m, uw => (m, uw, false)
  | e :: rest, m, uw =>
    if e.filter_out then
      if e.matches a then (false, uw, true)
      else scanExpressions a rest m uw
    else
      if e.matches a then scanExpressions a rest true (uw || e.has_wildcard)
      else scanExpressions a rest m uw

/-- Modelled from the spec: the accumulation over the telegram's addresses
(the outer loop of `doesTelegramMatchExpressions`).  An address whose scan
returned a positive match contributes to the global match flag and, if it
relied on a wildcard, to the global `used_wildcard` flag; a filter hit on
any address forces rejection of the whole telegram (group policy,
spec section 8 scenario 3). -/
def telegramLoop (es : List AddressExpression) :
    List Address → Bool → Bool → Bool → Bool × Bool × Bool
  | [], m, uw, f => (m, uw, f)
  | a :: rest, m, uw, f =>
    let r := scanExpressions a es false false
    telegramLoop es rest (m || r.1) (uw || (r.1 && r.2.1)) (f || r.2.2)

/-- Modelled from the spec: `doesTelegramMatchExpressions` (declared
address.h:113, `address.cc` absent).  Returns (accepted, used_wildcard).
The reconstruction is pinned by every expected value of `test_ids` and
`test_addresses` in testinternals.cc (see `address_engine_fidelity`). -/
def doesTelegramMatchExpressions (as : List Address)
    (es : List AddressExpression) : Bool × Bool :=
  let r := telegramLoop es as false false false
  (r.1 && !r.2.2, r.2.1)

/-- Some non-filter expression in `es` matches address `a`. -/
def matchesPositively (es : List AddressExpression) (a : Address) : Prop :=
  ∃ e ∈ es, e.filter_out = false ∧ e.matches a = true

/-- Some `filter_out` expression in `es` matches address `a`. -/
def hitsFilter (es : List AddressExpression) (a : Address) : Prop :=
  ∃ e ∈ es, e.filter_out = true ∧ e.matches a = true

/-- Some non-filter wildcard expression in `es` matches address `a`. -/
def wildPositive (es : List AddressExpression) (a : Address) : Prop :=
  ∃ e ∈ es, e.filter_out = false ∧ e.has_wildcard = true ∧ e.matches a = true

/-- Boolean form of `matchesPositively`. -/
def anyPositive (es : List AddressExpression) (a : Address) : Bool :=
  es.any fun e => !e.filter_out && e.matches a

/-- Boolean form of `wildPositive`. -/
def anyWildPositive (es : List AddressExpression) (a : Address) : Bool :=
  es.any fun e => !e.filter_out && e.has_wildcard && e.matches a

/-- Boolean form of `hitsFilter`. -/
def anyFilter (es : List AddressExpression) (a : Address) : Bool :=
  es.any fun e => e.filter_out && e.matches a

lemma anyPositive_iff (es : List AddressExpression) (a : Address) :
    anyPositive es a = true ↔ matchesPositively es a := by
  simp [anyPositive, matchesPositively, List.any_eq_true, Bool.and_eq_true,
    Bool.not_eq_true']

lemma anyWildPositive_iff (es : List AddressExpression) (a : Address) :
    anyWildPositive es a = true ↔ wildPositive es a := by
  simp [anyWildPositive, wildPositive, List.any_eq_true, Bool.and_eq_true,
    Bool.not_eq_true', and_assoc]

lemma anyFilter_iff (es : List AddressExpression) (a : Address) :
    anyFilter es a = true ↔ hitsFilter es a := by
  simp [anyFilter, hitsFilter, List.any_eq_true, Bool.and_eq_true]

lemma anyWildPositive_imp (es : List AddressExpression) (a : Address)
    (h : anyWildPositive es a = true) : anyPositive es a = true := by
  simp only [anyWildPositive, List.any_eq_true, Bool.and_eq_true] at h
  obtain ⟨e, he, ⟨hf, _⟩, hm⟩ := h
  simp only [anyPositive, List.any_eq_true, Bool.and_eq_true]
  exact ⟨e, he, hf, hm⟩

lemma scanExpressions_filtered (a : Address) (es : List AddressExpression) :
    ∀ m uw, (scanExpressions a es m uw).2.2 = anyFilter es a := by
  induction es with
  | nil => intro m uw; simp [scanExpressions, anyFilter]
  | cons e rest ih =>
    intro m uw
    by_cases hf : e.filter_out <;> by_cases hm : e.matches a <;>
      simp [scanExpressions, anyFilter, hf, hm, ih]

lemma scanExpressions_matched (a : Address) (es : List AddressExpression) :
    ∀ m uw, (scanExpressions a es m uw).1 =
      (!anyFilter es a && (m || anyPositive es a)) := by
  induction es with
  | nil => intro m uw; simp [scanExpressions, anyPositive, anyFilter]
  | cons e rest ih =>
    intro m uw
    by_cases hf : e.filter_out <;> by_cases hm : e.matches a <;>
      simp [scanExpressions, anyPositive, anyFilter, hf, hm, ih]

lemma scanExpressions_wildcard (a : Address) (es : List AddressExpression)
    (hnf : anyFilter es a = false) :
    ∀ m uw, (scanExpressions a es m uw).2.1 = (uw || anyWildPositive es a) := by
  induction es with
  | nil => intro m uw; simp [scanExpressions, anyWildPositive]
  | cons e rest ih =>
    intro m uw
    simp only [anyFilter, List.any_cons, Bool.or_eq_false_iff,
      Bool.and_eq_false_iff] at hnf
    by_cases hf : e.filter_out
    · have hm : e.matches a = false := by
        rcases hnf.1 with h | h
        · exact absurd h (by simp [hf])
        · exact h
      have : anyFilter rest a = false := by
        simp [anyFilter, hnf.2]
      simp [scanExpressions, anyWildPositive, hf, hm, ih this]
    · have : anyFilter rest a = false := by simp [anyFilter, hnf.2]
      by_cases hm : e.matches a <;>
        simp [scanExpressions, anyWildPositive, hf, hm, ih this, Bool.or_assoc,
          Bool.or_left_comm]

lemma telegramLoop_spec (es : List AddressExpression) (as : List Address) :
    ∀ m uw f, telegramLoop es as m uw f =
      (m || as.any (fun a => !anyFilter es a && anyPositive es a),
       uw || as.any (fun a => !anyFilter es a && anyWildPositive es a),
       f || as.any (fun a => anyFilter es a)) := by
  induction as with
  | nil => intro m uw f; simp [telegramLoop]
  | cons a rest ih =>
    intro m uw f
    have h1 := scanExpressions_matched a es false false
    have h2 := scanExpressions_filtered a es false false
    simp only [telegramLoop, ih, List.any_cons]
    refine Prod.ext ?_ (Prod.ext ?_ ?_) <;> simp only
    · rw [h1]; cases anyFilter es a <;> cases anyPositive es a <;>
        simp [Bool.or_assoc]
    · rw [h1]
      by_cases hnf : anyFilter es a = true
      · simp [hnf]
      · have hnf' : anyFilter es a = false := by simpa using hnf
        rw [scanExpressions_wildcard a es hnf']
        have := anyWildPositive_imp es a
        cases hw : anyWildPositive es a
        · simp [hnf', hw, Bool.or_assoc]
        · simp [hnf', hw, this hw, Bool.or_assoc]
    · rw [h2]; simp [Bool.or_assoc]

lemma doesTelegramMatchExpressions_spec (as : List Address)
    (es : List AddressExpression) :
    doesTelegramMatchExpressions as es =
      (as.any (fun a => !anyFilter es a && anyPositive es a)
         && !(as.any (fun a => anyFilter es a)),
       as.any (fun a => !anyFilter es a && anyWildPositive es a)) := by
  simp [doesTelegramMatchExpressions, telegramLoop_spec]

/-! ### Concrete scenario of spec section 8.3 / testinternals.cc:699 -/

/-- Telegram address `11111111.M=KAM.V=1b.T=16` (KAM packs to 11309). -/
def addr11 : Address := ⟨"11111111", 11309, 0x1b, 0x16⟩

/-- Telegram address `22222222.M=XXX.V=aa.T=99` (XXX packs to 25368). -/
def addr22 : Address := ⟨"22222222", 25368, 0xaa, 0x99⟩

/-- Parsed form of the expression `*`. -/
def exprStar : AddressExpression := ⟨"*", true, false, 0xffff, 0xff, 0xff, false, false⟩

/-- Parsed form of the expression `!1*.V=1b`. -/
def exprNot1V1b : AddressExpression :=
  ⟨"1*", true, false, 0xffff, 0x1b, 0xff, true, false⟩

/-- An address carrying only an id, as built by
`test_does_id_match_expression` (mfct, version, type all zero). -/
def idOnly (s : String) : Address := ⟨s, 0, 0, 0⟩

/-- An exact (non-wildcard) id expression with all other fields wildcarded. -/
def exprExact (s : String) : AddressExpression :=
  ⟨s, false, false, 0xffff, 0xff, 0xff, false, false⟩

/-- A wildcard id expression (id ends in `*`), other fields wildcarded. -/
def exprWild (s : String) : AddressExpression :=
  ⟨s, true, false, 0xffff, 0xff, 0xff, false, false⟩

/-- A filter-out exact id expression. -/
def exprNotExact (s : String) : AddressExpression :=
  ⟨s, false, false, 0xffff, 0xff, 0xff, true, false⟩

/-- A filter-out wildcard id expression. -/
def exprNotWild (s : String) : AddressExpression :=
  ⟨s, true, false, 0xffff, 0xff, 0xff, true, false⟩

/-- Fidelity of the modelled address engine: every expected value of
`test_does_id_match_expression` in testinternals.cc:485-500 holds for the
model (expression strings hand-translated per the section 4.1 grammar). -/
theorem address_engine_fidelity :
    doesTelegramMatchExpressions [idOnly "12345678"] [exprExact "12345678"]
      = (true, false)
    ∧ doesTelegramMatchExpressions [idOnly "12345678"] [exprWild "*"]
      = (true, true)
    ∧ doesTelegramMatchExpressions [idOnly "12345678"] [exprWild "2*"]
      = (false, false)
    ∧ doesTelegramMatchExpressions [idOnly "12345678"]
        [exprWild "*", exprNotWild "2*"] = (true, true)
    ∧ doesTelegramMatchExpressions [idOnly "22222222"]
        [exprWild "22*", exprNotExact "22222222"] = (false, false)
    ∧ doesTelegramMatchExpressions [idOnly "22222223"]
        [exprWild "22*", exprNotExact "22222222"] = (true, true)
    ∧ doesTelegramMatchExpressions [idOnly "22222223"]
        [exprWild "*", exprNotWild "22*"] = (false, false)
    ∧ doesTelegramMatchExpressions [idOnly "12333333"]
        [exprWild "123*", exprNotWild "1234*", exprNotWild "1235*",
         exprNotWild "1236*"] = (true, true)
    ∧ doesTelegramMatchExpressions [idOnly "12366666"]
        [exprWild "123*", exprNotWild "1234*", exprNotWild "1235*",
         exprNotWild "1236*"] = (false, false)
    ∧ doesTelegramMatchExpressions [idOnly "11223344"]
        [exprWild "22*", exprWild "33*", exprWild "44*", exprWild "55*"]
      = (false, false)
    ∧ doesTelegramMatchExpressions [idOnly "55223344"]
        [exprWild "22*", exprWild "33*", exprWild "44*", exprWild "55*"]
      = (true, true)
    ∧ doesTelegramMatchExpressions [idOnly "78563413"]
        [exprExact "78563412", exprExact "78563413"] = (true, false)
    ∧ doesTelegramMatchExpressions [idOnly "78563413"]
        [exprWild "*", exprNotExact "00156327", exprNotExact "00048713"]
      = (true, true)
    ∧ doesTelegramMatchExpressions [addr11, addr22]
        [exprExact "12345678", exprWild "22*"] = (true, true)
    ∧ doesTelegramMatchExpressions [addr11]
        [⟨"11111111", false, false, 11309, 0xff, 0xff, false, false⟩]
      = (true, false)
    ∧ doesTelegramMatchExpressions [addr11]
        [⟨"11111111", false, false, 11302, 0xff, 0xff, false, false⟩]
      = (false, false) := by
  decide

/-- C1. `doesTelegramMatchExpressions` accepts a (non-empty) telegram iff
some non-`filter_out` expression matches some address AND no `filter_out`
expression matches any address; in particular the group policy rejects the
spec section 8.3 scenario (`*,!1*.V=1b` over `{11111111.M=KAM.V=1b.T=16,
22222222.M=XXX.V=aa.T=99}`) even though `*` matched the second address. -/
theorem claim_C1 :
    (∀ (as : List Address) (es : List AddressExpression), as ≠ [] →
      ((doesTelegramMatchExpressions as es).1 = true ↔
        (∃ a ∈ as, matchesPositively es a) ∧ ∀ a ∈ as, ¬ hitsFilter es a))
    ∧ (doesTelegramMatchExpressions [addr11, addr22]
        [exprStar, exprNot1V1b]).1 = false := by
  constructor
  · intro as es _
    rw [doesTelegramMatchExpressions_spec]
    simp only [Bool.and_eq_true, Bool.not_eq_true', List.any_eq_false,
      List.any_eq_true, Bool.and_eq_true, Bool.not_eq_true']
    constructor
    · rintro ⟨⟨a, ha, _, hp⟩, hnof⟩
      exact ⟨⟨a, ha, (anyPositive_iff es a).mp hp⟩,
        fun b hb hf => hnof b hb ((anyFilter_iff es b).mpr hf)⟩
    · rintro ⟨⟨a, ha, hp⟩, hnof⟩
      have hfa : ∀ b ∈ as, anyFilter es b = false := by
        intro b hb
        by_contra h
        exact hnof b hb ((anyFilter_iff es b).mp (by simpa using h))
      exact ⟨⟨a, ha, by simp [hfa a ha], (anyPositive_iff es a).mpr hp⟩,
        fun b hb => by simp [hfa b hb]⟩
  · decide

/-- Closed witness for the universally quantified part of C1, discharging
the non-emptiness hypothesis at the concrete single-address telegram of
testinternals.cc:485. -/
theorem claim_C1_witness :
    (doesTelegramMatchExpressions [idOnly "12345678"]
        [exprExact "12345678"]).1 = true ↔
      (∃ a ∈ [idOnly "12345678"],
        matchesPositively [exprExact "12345678"] a)
      ∧ ∀ a ∈ [idOnly "12345678"], ¬ hitsFilter [exprExact "12345678"] a :=
  claim_C1.1 [idOnly "12345678"] [exprExact "12345678"] (by simp)

/-- Counterexample to C2 as stated: on the spec section 8.3 scenario
(testinternals.cc:699) the outcome is REJECT yet `used_wildcard` is true,
because the second address was positively matched by the wildcard `*` and
not filtered, while the first address tripped the filter `!1*.V=1b`.  The
claim asserts `used_wildcard` is never true when the outcome is REJECT. -/
theorem claim_C2_counterexample :
    doesTelegramMatchExpressions [addr11, addr22] [exprStar, exprNot1V1b]
      = (false, true) := by
  decide

/-- C2 (amended).  `used_wildcard` is true iff some address of the telegram
is matched by a non-filter wildcard expression and matched by no
`filter_out` expression — i.e. some address was accepted relying on a
wildcard.  This holds regardless of the overall outcome: a `filter_out`
match on a different address still rejects the telegram while leaving
`used_wildcard` set. -/
theorem claim_C2_amended (as : List Address) (es : List AddressExpression) :
    (doesTelegramMatchExpressions as es).2 = true ↔
      ∃ a ∈ as, ¬ hitsFilter es a ∧ wildPositive es a := by
  rw [doesTelegramMatchExpressions_spec]
  simp only [List.any_eq_true, Bool.and_eq_true, Bool.not_eq_true']
  constructor
  · rintro ⟨a, ha, hnf, hw⟩
    exact ⟨a, ha,
      fun h => absurd ((anyFilter_iff es a).mpr h) (by simp [hnf]),
      (anyWildPositive_iff es a).mp hw⟩
  · rintro ⟨a, ha, hnf, hw⟩
    refine ⟨a, ha, ?_, (anyWildPositive_iff es a).mpr hw⟩
    by_contra h
    exact hnf ((anyFilter_iff es a).mp (by simpa using h))

/-! ## Meter manager (from `src/metermanager.cc`)

The meters and templates interact with the rest of the system through
virtual calls (`Meter::handleTelegram`, `isTelegramForMeter`,
`pickMeterDriver`, `Telegram::parseHeader`) whose implementations live
outside the snapshot.  For a fixed incoming telegram each of these calls
is a fixed value, so they are embedded as oracle fields of the meter /
template / telegram records.  `MeterManagerImplementation::handleTelegram`
itself (metermanager.cc:137-294) is translated control-flow-faithfully. -/

/-- An instantiated meter, as observed by the manager for one fixed
incoming telegram: `handles` is the value of `m->handleTelegram(...)`,
`exact_match` the contribution to the `exact_id_match` out-flag, and
`numUpdates` the value of `meter->numUpdates()`. -/
structure Meter where
  name : String
  driver_name : String
  handles : Bool
  exact_match : Bool
  numUpdates : Nat
deriving DecidableEq, Repr

/-- A meter template (`MeterInfo`): `matches_telegram` is the oracle for
`MeterCommonImplementation::isTelegramForMeter(&t, NULL, &mi)`;
`created_matches` / `created_handles` are the match flag and return value
of the freshly created meter's `handleTelegram` (metermanager.cc:258). -/
structure MeterInfo where
  name : String
  driver_name : String
  matches_telegram : Bool
  created_matches : Bool
  created_handles : Bool
deriving DecidableEq, Repr

/-- The incoming telegram, as the manager observes it: `parse_ok` is the
result of `t.parseHeader(input_frame)` (metermanager.cc:169) and
`picked_driver` the result of `pickMeterDriver(&t)` (metermanager.cc:206),
`none` modelling a driver with empty name. -/
structure Telegram where
  parse_ok : Bool
  picked_driver : Option String
deriving DecidableEq, Repr

/-- The warnings `handleTelegram` can emit inside the template loop
(metermanager.cc:212, 264, 274). -/
inductive Warning where
  | unknownDriver (name : String)
  | newMeterDidNotMatch (name : String)
  | newMeterDidNotHandle (name : String)
deriving DecidableEq, Repr

/-- The manager state (fields of `MeterManagerImplementation`,
metermanager.cc:37-51); listeners are kept as a count since their bodies
are opaque callbacks. -/
structure MeterManagerImplementation where
  should_analyze : Bool
  meters : List Meter
  meter_templates : List MeterInfo
  telegram_listeners : Nat
deriving DecidableEq, Repr

/-- `createMeter(&meter_info)` after the `auto` driver resolution of
metermanager.cc:203-219: driver `auto` is replaced by the picked driver
when the registry finds one and kept (with a warning) otherwise. -/
def createMeter (t : Telegram) (mi : MeterInfo) : Meter :=
  let driver :=
    if mi.driver_name = "auto" then
      match t.picked_driver with
      | some d => d
      | none => mi.driver_name
    else mi.driver_name
  ⟨mi.name, driver, mi.created_handles, mi.created_matches,
    if mi.created_handles then 1 else 0⟩

/-- The template loop of metermanager.cc:174-282.  Returns the spawned
meters (in template order), the warnings emitted, and whether one of the
spawned meters handled the telegram.  Every matching template spawns a
meter — the loop never breaks — and an unknown `auto` driver only warns. -/
def templatesLoop (t : Telegram) : List MeterInfo → List Meter × List Warning × Bool
  | [] => ([], [], false)
  | mi :: rest =>
    if mi.matches_telegram then
      let warnUnknown : List Warning :=
        if mi.driver_name = "auto" ∧ t.picked_driver = none then
          [.unknownDriver mi.name]
        else []
      let meter := createMeter t mi
      let postWarn : List Warning :=
        if mi.created_matches = false then [.newMeterDidNotMatch mi.name]
        else if mi.created_handles = false then [.newMeterDidNotHandle mi.name]
        else []
      let r := templatesLoop t rest
      (meter :: r.1, warnUnknown ++ postWarn ++ r.2.1,
        (mi.created_matches && mi.created_handles) || r.2.2)
    else templatesLoop t rest

/-- The observable outcome of one `handleTelegram` call. -/
structure HandleOutcome where
  handled : Bool
  state : MeterManagerImplementation
  consulted_templates : Bool
  spawned : List Meter
  warnings : List Warning
  listeners_invoked : Nat
  analyzed : Bool
deriving DecidableEq, Repr

/-- `MeterManagerImplementation::handleTelegram` (metermanager.cc:137-294).
Analyze mode returns early (and skips the listeners); otherwise every
instantiated meter is offered the telegram, the templates are consulted
only when no meter handled it and no exact id match was seen and the
header parses, and the listeners run at the end regardless. -/
def handleTelegram (st : MeterManagerImplementation) (t : Telegram) :
    HandleOutcome :=
  if st.should_analyze then
    ⟨true, st, false, [], [], 0, true⟩
  else
    let handled0 := st.meters.any fun m => m.handles
    let exact_id_match := st.meters.any fun m => m.exact_match
    if !handled0 && !exact_id_match && t.parse_ok then
      let r := templatesLoop t st.meter_templates
      ⟨handled0 || r.2.2, { st with meters := st.meters ++ r.1 }, true,
        r.1, r.2.1, st.telegram_listeners, false⟩
    else
      ⟨handled0, st, false, [], [], st.telegram_listeners, false⟩

/-- `MeterManagerImplementation::hasAllMetersReceivedATelegram`
(metermanager.cc:90-100). -/
def hasAllMetersReceivedATelegram (st : MeterManagerImplementation) : Bool :=
  if st.meters.length < st.meter_templates.length then false
  else st.meters.all fun m => m.numUpdates != 0

lemma templatesLoop_spawned (t : Telegram) (ms : List MeterInfo) :
    (templatesLoop t ms).1 =
      (ms.filter fun mi => mi.matches_telegram).map (createMeter t) := by
  induction ms with
  | nil => simp [templatesLoop]
  | cons mi rest ih =>
    by_cases h : mi.matches_telegram = true <;>
      simp [templatesLoop, h, ih]

lemma templatesLoop_unknown_warning (t : Telegram) (ms : List MeterInfo)
    (mi : MeterInfo) (hmem : mi ∈ ms) (hmatch : mi.matches_telegram = true)
    (hauto : mi.driver_name = "auto") (hnone : t.picked_driver = none) :
    Warning.unknownDriver mi.name ∈ (templatesLoop t ms).2.1 := by
  induction ms with
  | nil => cases hmem
  | cons hd rest ih =>
    rcases List.mem_cons.mp hmem with rfl | hmem'
    · simp [templatesLoop, hmatch, hauto, hnone]
    · have hin := ih hmem'
      by_cases h : hd.matches_telegram = true <;>
        simp [templatesLoop, h, hin]

/-- C3. The manager consults the templates only when no instantiated
meter handled the telegram and none reported an exact id match; when it
does, every matching template spawns a meter, in insertion order (greedy);
and the telegram listeners are invoked regardless of the outcome. -/
theorem claim_C3 (st : MeterManagerImplementation) (t : Telegram)
    (h : st.should_analyze = false) :
    ((handleTelegram st t).consulted_templates = true →
      (∀ m ∈ st.meters, m.handles = false)
        ∧ ∀ m ∈ st.meters, m.exact_match = false)
    ∧ ((handleTelegram st t).consulted_templates = true →
      (handleTelegram st t).spawned =
        (st.meter_templates.filter fun mi => mi.matches_telegram).map
          (createMeter t))
    ∧ (handleTelegram st t).listeners_invoked = st.telegram_listeners := by
  unfold handleTelegram
  rw [h]
  simp only [Bool.false_eq_true, if_false]
  split
  · next hg =>
    simp only [Bool.and_eq_true, Bool.not_eq_true', List.any_eq_false] at hg
    refine ⟨fun _ => ?_, fun _ => templatesLoop_spawned t st.meter_templates,
      rfl⟩
    refine ⟨fun m hm => ?_, fun m hm => ?_⟩
    · simpa using hg.1.1 m hm
    · simpa using hg.1.2 m hm
  · exact ⟨fun hc => absurd hc (by simp), fun hc => absurd hc (by simp), rfl⟩

/-- Closed witness for C3, at a manager holding one idle meter, one
template and two listeners. -/
theorem claim_C3_witness :
    ((handleTelegram ⟨false, [⟨"w", "iperl", false, false, 0⟩],
        [⟨"tpl", "auto", true, true, true⟩], 2⟩
        ⟨true, none⟩).consulted_templates = true →
      (∀ m ∈ [(⟨"w", "iperl", false, false, 0⟩ : Meter)], m.handles = false)
        ∧ ∀ m ∈ [(⟨"w", "iperl", false, false, 0⟩ : Meter)],
            m.exact_match = false)
    ∧ ((handleTelegram ⟨false, [⟨"w", "iperl", false, false, 0⟩],
        [⟨"tpl", "auto", true, true, true⟩], 2⟩
        ⟨true, none⟩).consulted_templates = true →
      (handleTelegram ⟨false, [⟨"w", "iperl", false, false, 0⟩],
        [⟨"tpl", "auto", true, true, true⟩], 2⟩ ⟨true, none⟩).spawned =
        (([⟨"tpl", "auto", true, true, true⟩] :
            List MeterInfo).filter fun mi => mi.matches_telegram).map
          (createMeter ⟨true, none⟩))
    ∧ (handleTelegram ⟨false, [⟨"w", "iperl", false, false, 0⟩],
        [⟨"tpl", "auto", true, true, true⟩], 2⟩
        ⟨true, none⟩).listeners_invoked = 2 :=
  claim_C3 ⟨false, [⟨"w", "iperl", false, false, 0⟩],
    [⟨"tpl", "auto", true, true, true⟩], 2⟩ ⟨true, none⟩ rfl

/-- C4. When a matching template has driver `auto` and the registry finds
no driver, the manager warns (non-fatally), still registers the freshly
created meter in the meter collection, and still invokes the listeners —
handling continues. -/
theorem claim_C4 (st : MeterManagerImplementation) (t : Telegram)
    (mi : MeterInfo)
    (h1 : st.should_analyze = false)
    (h2 : ∀ m ∈ st.meters, m.handles = false)
    (h3 : ∀ m ∈ st.meters, m.exact_match = false)
    (h4 : t.parse_ok = true)
    (h5 : mi ∈ st.meter_templates)
    (h6 : mi.matches_telegram = true)
    (h7 : mi.driver_name = "auto")
    (h8 : t.picked_driver = none) :
    Warning.unknownDriver mi.name ∈ (handleTelegram st t).warnings
    ∧ createMeter t mi ∈ (handleTelegram st t).state.meters
    ∧ (handleTelegram st t).listeners_invoked = st.telegram_listeners := by
  have hg : ((!st.meters.any fun m => m.handles)
      && (!st.meters.any fun m => m.exact_match) && t.parse_ok) = true := by
    simp only [Bool.and_eq_true, Bool.not_eq_true', List.any_eq_false]
    exact ⟨⟨fun m hm => by simp [h2 m hm], fun m hm => by simp [h3 m hm]⟩, h4⟩
  unfold handleTelegram
  rw [h1]
  simp only [Bool.false_eq_true, if_false, hg, if_pos]
  refine ⟨templatesLoop_unknown_warning t st.meter_templates mi h5 h6 h7 h8,
    ?_, by trivial⟩
  simp only [List.mem_append, templatesLoop_spawned]
  exact Or.inr (List.mem_map_of_mem _ (List.mem_filter.mpr ⟨h5, h6⟩))

/-- Closed witness for C4: an empty manager with a single matching `auto`
template, a telegram whose header parses, and a registry that finds no
driver. -/
theorem claim_C4_witness :
    Warning.unknownDriver "tpl" ∈
      (handleTelegram ⟨false, [], [⟨"tpl", "auto", true, true, true⟩], 1⟩
        ⟨true, none⟩).warnings
    ∧ createMeter ⟨true, none⟩ ⟨"tpl", "auto", true, true, true⟩ ∈
      (handleTelegram ⟨false, [], [⟨"tpl", "auto", true, true, true⟩], 1⟩
        ⟨true, none⟩).state.meters
    ∧ (handleTelegram ⟨false, [], [⟨"tpl", "auto", true, true, true⟩], 1⟩
        ⟨true, none⟩).listeners_invoked = 1 :=
  claim_C4 ⟨false, [], [⟨"tpl", "auto", true, true, true⟩], 1⟩
    ⟨true, none⟩ ⟨"tpl", "auto", true, true, true⟩
    rfl (by simp) (by simp) rfl (by simp) rfl rfl rfl

/-- C10. `hasAllMetersReceivedATelegram` returns true iff there are at
least as many instantiated meters as templates and every meter has a
non-zero update count; in particular it is true when both collections are
empty. -/
theorem claim_C10 :
    (∀ st : MeterManagerImplementation,
      (hasAllMetersReceivedATelegram st = true ↔
        st.meter_templates.length ≤ st.meters.length ∧
          ∀ m ∈ st.meters, m.numUpdates ≠ 0))
    ∧ hasAllMetersReceivedATelegram ⟨false, [], [], 0⟩ = true := by
  constructor
  · intro st
    by_cases h : st.meters.length < st.meter_templates.length
    · simp [hasAllMetersReceivedATelegram, h, Nat.not_le_of_lt h]
    · simp [hasAllMetersReceivedATelegram, h, Nat.le_of_not_lt h,
        List.all_eq_true]
  · rfl

/-! ## SI exponent algebra (spec section 4.4, tests testinternals.cc:1832-1856)

Modelled from the spec: the implementation file `units.cc` is absent from
the snapshot.  `SIExp` is a vector of signed 8-bit exponents over
(s, m, kg, A, K, mol, cd, °C, currency) plus an `invalid` flag; `mul` and
`div` add/subtract componentwise with two's-complement wrap-around and
mark the result invalid on any overflow (the test at line 1848 pins the
wrapped rendering `s⁻¹²⁸` for 127 + 1), and an invalid operand poisons
the result. -/

/-- Two's-complement wrap of an integer into the signed 8-bit range. -/
def int8wrap (x : Int) : Int := (x + 128).emod 256 - 128

/-- Does `x` lie in the signed 8-bit range? -/
def inInt8Range (x : Int) : Bool := decide (-128 ≤ x) && decide (x ≤ 127)

/-- Modelled from the spec: the `SIExp` exponent vector of `units.cc`. -/
structure SIExp where
  s : Int
  m : Int
  kg : Int
  a : Int
  k : Int
  mol : Int
  cd : Int
  c : Int
  currency : Int
  invalid : Bool
deriving DecidableEq, Repr

/-- The all-zero, valid exponent vector (`SIExp::build()`). -/
def SIExp.zero : SIExp := ⟨0, 0, 0, 0, 0, 0, 0, 0, 0, false⟩

/-- One component of an exponent addition: wrapped value and overflow bit. -/
def addExp (x y : Int) : Int × Bool := (int8wrap (x + y), !inInt8Range (x + y))

/-- One component of an exponent subtraction. -/
def subExp (x y : Int) : Int × Bool := (int8wrap (x - y), !inInt8Range (x - y))

/-- Modelled from the spec: `SIExp::mul` adds componentwise; overflow in
any component, or an invalid operand, marks the result invalid. -/
def SIExp.mul (e f : SIExp) : SIExp :=
  let rs := addExp e.s f.s
  let rm := addExp e.m f.m
  let rkg := addExp e.kg f.kg
  let ra := addExp e.a f.a
  let rk := addExp e.k f.k
  let rmol := addExp e.mol f.mol
  let rcd := addExp e.cd f.cd
  let rc := addExp e.c f.c
  let rcur := addExp e.currency f.currency
  ⟨rs.1, rm.1, rkg.1, ra.1, rk.1, rmol.1, rcd.1, rc.1, rcur.1,
    e.invalid || f.invalid || rs.2 || rm.2 || rkg.2 || ra.2 || rk.2
      || rmol.2 || rcd.2 || rc.2 || rcur.2⟩

/-- Modelled from the spec: `SIExp::div` subtracts componentwise with the
same overflow and poisoning rules as `mul`. -/
def SIExp.div (e f : SIExp) : SIExp :=
  let rs := subExp e.s f.s
  let rm := subExp e.m f.m
  let rkg := subExp e.kg f.kg
  let ra := subExp e.a f.a
  let rk := subExp e.k f.k
  let rmol := subExp e.mol f.mol
  let rcd := subExp e.cd f.cd
  let rc := subExp e.c f.c
  let rcur := subExp e.currency f.currency
  ⟨rs.1, rm.1, rkg.1, ra.1, rk.1, rmol.1, rcd.1, rc.1, rcur.1,
    e.invalid || f.invalid || rs.2 || rm.2 || rkg.2 || ra.2 || rk.2
      || rmol.2 || rcd.2 || rc.2 || rcur.2⟩

/-- Some component of the exponent sum leaves the signed 8-bit range. -/
def addOverflows (e f : SIExp) : Prop :=
  inInt8Range (e.s + f.s) = false ∨ inInt8Range (e.m + f.m) = false
    ∨ inInt8Range (e.kg + f.kg) = false ∨ inInt8Range (e.a + f.a) = false
    ∨ inInt8Range (e.k + f.k) = false ∨ inInt8Range (e.mol + f.mol) = false
    ∨ inInt8Range (e.cd + f.cd) = false ∨ inInt8Range (e.c + f.c) = false
    ∨ inInt8Range (e.currency + f.currency) = false

/-- Some component of the exponent difference leaves the signed 8-bit range. -/
def subOverflows (e f : SIExp) : Prop :=
  inInt8Range (e.s - f.s) = false ∨ inInt8Range (e.m - f.m) = false
    ∨ inInt8Range (e.kg - f.kg) = false ∨ inInt8Range (e.a - f.a) = false
    ∨ inInt8Range (e.k - f.k) = false ∨ inInt8Range (e.mol - f.mol) = false
    ∨ inInt8Range (e.cd - f.cd) = false ∨ inInt8Range (e.c - f.c) = false
    ∨ inInt8Range (e.currency - f.currency) = false

/-- C7. `SIExp.mul`/`SIExp.div` mark the result Invalid exactly when an
operand is already Invalid or some componentwise sum/difference leaves the
signed 8-bit range, so invalidity poisons all downstream operations; in
particular multiplying a vector with s=127 by one with s=1 overflows and
yields an Invalid vector (testinternals.cc:1844-1848). -/
theorem claim_C7 (e f : SIExp) :
    ((e.mul f).invalid = true ↔
      e.invalid = true ∨ f.invalid = true ∨ addOverflows e f)
    ∧ ((e.div f).invalid = true ↔
      e.invalid = true ∨ f.invalid = true ∨ subOverflows e f)
    ∧ (SIExp.mul { SIExp.zero with s := 127 }
        { SIExp.zero with s := 1 }).invalid = true := by
  refine ⟨?_, ?_, by decide⟩
  · simp [SIExp.mul, addExp, addOverflows, Bool.or_eq_true,
      Bool.not_eq_true', or_assoc]
  · simp [SIExp.div, subExp, subOverflows, Bool.or_eq_true,
      Bool.not_eq_true', or_assoc]

/-! ## SI units and conversion (spec sections 3 and 4.4)

Modelled from the spec: `units.cc` is absent.  An `SIUnit` is a quantity
tag, a scalar magnitude (a `Rat` here — every constant the tests pin is
rational) and an exponent vector.  `convertTo` succeeds on the dedicated
affine temperature path (°C↔K↔°F, spec section 4.4 "special non-linear
conversions"), or when the exponent vectors are equal and the quantities
are equal or explicitly cross-convertible (KWH↔KVARH↔KVAH; the
COUNTER/FACTOR/NUMBER/PERCENTAGE group all carry quantity Dimensionless
and identical SIUnits, so the same-quantity case covers them); otherwise
it fails and leaves the output value untouched. -/

/-- The closed quantity enumeration of spec section 3. -/
inductive Quantity where
  | Energy | Power | Volume | Flow | Temperature | Time | Length | Mass
  | Amperage | Voltage | Pressure | Frequency | Angle | Dimensionless
  | AmountOfSubstance | LuminousIntensity | RelativeHumidity | HCA
  | Apparent_Energy | Reactive_Energy | PointInTime | Text
deriving DecidableEq, Repr

/-- Modelled from the spec: `SIUnit` = (quantity, scalar, exponents). -/
structure SIUnit where
  quantity : Quantity
  scalar : Rat
  exp : SIExp
deriving DecidableEq, Repr

/-- Exponent vector of kelvin (the SI base temperature dimension). -/
def expK : SIExp := { SIExp.zero with k := 1 }

/-- Exponent vector of Celsius (the extra non-SI °C dimension). -/
def expC : SIExp := { SIExp.zero with c := 1 }

/-- The kelvin unit. -/
def siK : SIUnit := ⟨.Temperature, 1, expK⟩

/-- The Celsius unit; testinternals.cc:1872-1875 pins scalar 1 and
exponents c¹ (rendered `1c`). -/
def siC : SIUnit := ⟨.Temperature, 1, expC⟩

/-- The Fahrenheit unit.  °F has no base dimension of its own; it lives on
the °C dimension with the degree-size scalar 5/9 (written in normal form
so that unit comparisons evaluate) and is recognised by the dedicated
affine path. -/
def siF : SIUnit :=
  ⟨.Temperature, Rat.mk' 5 9 (by decide) (by decide), expC⟩

/-- Modelled from the spec: the dedicated affine path for the non-linear
temperature conversions °C↔K↔°F (273.15 = 5463/20, 459.67 = 45967/100). -/
def affineTempConvert (fromU toU : SIUnit) (v : Rat) : Option Rat :=
  if fromU = siC ∧ toU = siK then some (v + 5463/20)
  else if fromU = siK ∧ toU = siC then some (v - 5463/20)
  else if fromU = siK ∧ toU = siF then some (v * 9/5 - 45967/100)
  else if fromU = siF ∧ toU = siK then some ((v + 45967/100) * 5/9)
  else if fromU = siC ∧ toU = siF then some (v * 9/5 + 32)
  else if fromU = siF ∧ toU = siC then some ((v - 32) * 5/9)
  else none

/-- The explicit cross-quantity rule of spec section 4.4: the three energy
quantities (KWH, KVARH, KVAH) are mutually convertible. -/
def crossQuantityOk (q1 q2 : Quantity) : Bool :=
  (q1 == Quantity.Energy || q1 == Quantity.Reactive_Energy
    || q1 == Quantity.Apparent_Energy)
  && (q2 == Quantity.Energy || q2 == Quantity.Reactive_Energy
    || q2 == Quantity.Apparent_Energy)

/-- Modelled from the spec: `SIUnit::convertTo(value, to, out)`; the pair
returned is (success, the out-parameter after the call), so a failed
conversion visibly leaves `out` unmutated. -/
def SIUnit.convertTo (fromU : SIUnit) (v : Rat) (toU : SIUnit) (out : Rat) :
    Bool × Rat :=
  match affineTempConvert fromU toU v with
  | some w => (true, w)
  | none =>
    if fromU.exp = toU.exp ∧ (fromU.quantity = toU.quantity
        ∨ crossQuantityOk fromU.quantity toU.quantity = true) then
      (true, v * fromU.scalar / toU.scalar)
    else (false, out)

/-- (fromU, toU) is one of the six dedicated affine temperature pairs. -/
def affineTempPair (fromU toU : SIUnit) : Prop :=
  (fromU = siC ∧ toU = siK) ∨ (fromU = siK ∧ toU = siC)
    ∨ (fromU = siK ∧ toU = siF) ∨ (fromU = siF ∧ toU = siK)
    ∨ (fromU = siC ∧ toU = siF) ∨ (fromU = siF ∧ toU = siC)

lemma affineTempConvert_none_iff (fromU toU : SIUnit) (v : Rat) :
    affineTempConvert fromU toU v = none ↔ ¬ affineTempPair fromU toU := by
  unfold affineTempConvert affineTempPair
  split_ifs with h1 h2 h3 h4 h5 h6 <;> simp_all

/-- Counterexample to C5 as stated: converting 0 °C to kelvin succeeds
(yielding 273.15 = 5463/20, as testinternals.cc:1996 pins) even though
the exponent vectors of °C (c¹) and K (k¹) are different, refuting the
claimed "succeeds only if the SI exponent vectors are equal". -/
theorem claim_C5_counterexample :
    (siC.convertTo 0 siK 55).1 = true ∧ siC.exp ≠ siK.exp
      ∧ (siC.convertTo 0 siK 55).2 = 5463/20 := by
  refine ⟨by decide, by decide, ?_⟩
  show (SIUnit.convertTo siC 0 siK 55).2 = 5463/20
  simp [SIUnit.convertTo, affineTempConvert]

/-- C5 (amended).  `convertTo` succeeds iff the pair is one of the
dedicated affine temperature conversions (°C↔K↔°F), or the exponent
vectors are equal and the quantities are equal or explicitly
cross-convertible (KWH↔KVARH↔KVAH; COUNTER↔FACTOR↔NUMBER↔PERCENTAGE
share quantity Dimensionless); when it fails the output is unmutated. -/
theorem claim_C5_amended (fromU toU : SIUnit) (v out : Rat) :
    ((fromU.convertTo v toU out).1 = true ↔
      affineTempPair fromU toU
        ∨ (fromU.exp = toU.exp ∧ (fromU.quantity = toU.quantity
            ∨ crossQuantityOk fromU.quantity toU.quantity = true)))
    ∧ ((fromU.convertTo v toU out).1 = false →
        (fromU.convertTo v toU out).2 = out) := by
  cases haff : affineTempConvert fromU toU v with
  | none =>
    have hnp := (affineTempConvert_none_iff fromU toU v).mp haff
    by_cases hc : fromU.exp = toU.exp ∧ (fromU.quantity = toU.quantity
        ∨ crossQuantityOk fromU.quantity toU.quantity = true)
    · simp [SIUnit.convertTo, haff, hc, hnp]
    · simp [SIUnit.convertTo, haff, hc, hnp]
  | some w =>
    have hp : affineTempPair fromU toU := by
      by_contra hnp
      rw [(affineTempConvert_none_iff fromU toU v).mpr hnp] at haff
      cases haff
    simp [SIUnit.convertTo, haff, hp]

/-- Closed witness for C5 (amended), applied at the pinned failing pair of
testinternals.cc:2028 (M3C → KWH, same quantity Energy but different
exponent vectors): the conversion fails and leaves the output alone. -/
theorem claim_C5_amended_witness :
    ((SIUnit.convertTo ⟨.Energy, 1, { SIExp.zero with m := 3, c := 1 }⟩
        0 ⟨.Energy, 3600000, { SIExp.zero with kg := 1, m := 2, s := -2 }⟩
        7).1 = true ↔
      affineTempPair ⟨.Energy, 1, { SIExp.zero with m := 3, c := 1 }⟩
          ⟨.Energy, 3600000, { SIExp.zero with kg := 1, m := 2, s := -2 }⟩
        ∨ (SIExp.mk 0 3 0 0 0 0 0 1 0 false
            = { SIExp.zero with kg := 1, m := 2, s := -2 }
          ∧ ((Quantity.Energy : Quantity) = .Energy
            ∨ crossQuantityOk .Energy .Energy = true)))
    ∧ ((SIUnit.convertTo ⟨.Energy, 1, { SIExp.zero with m := 3, c := 1 }⟩
        0 ⟨.Energy, 3600000, { SIExp.zero with kg := 1, m := 2, s := -2 }⟩
        7).1 = false →
      (SIUnit.convertTo ⟨.Energy, 1, { SIExp.zero with m := 3, c := 1 }⟩
        0 ⟨.Energy, 3600000, { SIExp.zero with kg := 1, m := 2, s := -2 }⟩
        7).2 = 7) :=
  claim_C5_amended ⟨.Energy, 1, { SIExp.zero with m := 3, c := 1 }⟩
    ⟨.Energy, 3600000, { SIExp.zero with kg := 1, m := 2, s := -2 }⟩ 0 7

/-! ### Named units pinned by the tests -/

/-- Exponent vector of energy: kg·m²·s⁻². -/
def expEnergy : SIExp := { SIExp.zero with kg := 1, m := 2, s := -2 }

/-- kWh: quantity Energy, scalar 3.6×10⁶ (testinternals.cc:1861-1864). -/
def siKWH : SIUnit := ⟨.Energy, 3600000, expEnergy⟩

/-- MJ. -/
def siMJ : SIUnit := ⟨.Energy, 1000000, expEnergy⟩

/-- GJ. -/
def siGJ : SIUnit := ⟨.Energy, 1000000000, expEnergy⟩

/-- kvarh: reactive energy, same expansion as kWh. -/
def siKVARH : SIUnit := ⟨.Reactive_Energy, 3600000, expEnergy⟩

/-- kVAh: apparent energy, same expansion as kWh. -/
def siKVAH : SIUnit := ⟨.Apparent_Energy, 3600000, expEnergy⟩

/-- kW: quantity Power, scalar 1000, kg·m²·s⁻³. -/
def siKW : SIUnit := ⟨.Power, 1000, { SIExp.zero with kg := 1, m := 2, s := -3 }⟩

/-- m3c: the m³·°C energy unit (not convertible to kWh). -/
def siM3C : SIUnit := ⟨.Energy, 1, { SIExp.zero with m := 3, c := 1 }⟩

/-- m3ch: the m³·°C/h power unit (not convertible to kW). -/
def siM3CH : SIUnit :=
  ⟨.Power, Rat.mk' 1 3600 (by decide) (by decide),
    { SIExp.zero with m := 3, c := 1, s := -1 }⟩

lemma convertTo_of_affine_none (fromU toU : SIUnit) (v out : Rat)
    (h : affineTempConvert fromU toU v = none) :
    SIUnit.convertTo fromU v toU out =
      if fromU.exp = toU.exp ∧ (fromU.quantity = toU.quantity
          ∨ crossQuantityOk fromU.quantity toU.quantity = true) then
        (true, v * fromU.scalar / toU.scalar)
      else (false, out) := by
  unfold SIUnit.convertTo
  rw [h]

lemma convertTo_of_affine_some (fromU toU : SIUnit) (v w out : Rat)
    (h : affineTempConvert fromU toU v = some w) :
    SIUnit.convertTo fromU v toU out = (true, w) := by
  unfold SIUnit.convertTo
  rw [h]

/-- Fidelity of the modelled conversion against the pinned vectors of
`test_si_units_conversion` and `test_expected_failed_si_convert`
(testinternals.cc:1996-2030, 2092): energy scalings, the kvarh/kvah cross
rules, the affine temperature path, and the two pinned failures that
leave the output untouched. -/
theorem si_convert_fidelity :
    SIUnit.convertTo siKWH 1 siMJ 0 = (true, 18/5)
    ∧ SIUnit.convertTo siKWH 1 siGJ 0 = (true, 9/2500)
    ∧ SIUnit.convertTo siGJ 1 siMJ 0 = (true, 1000)
    ∧ SIUnit.convertTo siMJ 10 siKWH 0 = (true, 25/9)
    ∧ SIUnit.convertTo siKVARH 1 siKWH 0 = (true, 1)
    ∧ SIUnit.convertTo siKWH 1 siKVAH 0 = (true, 1)
    ∧ SIUnit.convertTo siM3C 0 siKWH 7 = (false, 7)
    ∧ SIUnit.convertTo siM3CH 0 siKW 7 = (false, 7)
    ∧ SIUnit.convertTo siC (217/20) siK 0 = (true, 284)
    ∧ SIUnit.convertTo siK 100 siC 0 = (true, -3463/20)
    ∧ SIUnit.convertTo siK 100 siF 0 = (true, -27967/100)
    ∧ SIUnit.convertTo siF 100 siC 0 = (true, 340/9) := by
  refine ⟨?_, ?_, ?_, ?_, ?_, ?_, ?_, ?_, ?_, ?_, ?_, ?_⟩
  · rw [convertTo_of_affine_none _ _ _ _ (by decide)]
    norm_num [siKWH, siMJ, Prod.ext_iff]
  · rw [convertTo_of_affine_none _ _ _ _ (by decide)]
    norm_num [siKWH, siGJ, Prod.ext_iff]
  · rw [convertTo_of_affine_none _ _ _ _ (by decide)]
    norm_num [siGJ, siMJ, Prod.ext_iff]
  · rw [convertTo_of_affine_none _ _ _ _ (by decide)]
    norm_num [siMJ, siKWH, Prod.ext_iff]
  · rw [convertTo_of_affine_none _ _ _ _ (by decide)]
    norm_num [siKVARH, siKWH, crossQuantityOk, Prod.ext_iff]
  · rw [convertTo_of_affine_none _ _ _ _ (by decide)]
    norm_num [siKWH, siKVAH, crossQuantityOk, Prod.ext_iff]
  · rw [convertTo_of_affine_none _ _ _ _ (by decide)]
    norm_num [siM3C, siKWH, expEnergy, SIExp.zero, Prod.ext_iff]
  · rw [convertTo_of_affine_none _ _ _ _ (by decide)]
    norm_num [siM3CH, siKW, SIExp.zero, Prod.ext_iff]
  · rw [convertTo_of_affine_some siC siK (217/20) (217/20 + 5463/20) 0 rfl]
    norm_num [Prod.ext_iff]
  · rw [convertTo_of_affine_some siK siC 100 (100 - 5463/20) 0 rfl]
    norm_num [Prod.ext_iff]
  · rw [convertTo_of_affine_some siK siF 100 (100 * 9/5 - 45967/100) 0 rfl]
    norm_num [Prod.ext_iff]
  · rw [convertTo_of_affine_some siF siC 100 ((100 - 32) * 5/9) 0 rfl]
    norm_num [Prod.ext_iff]

/-! ## Calendar month arithmetic (spec section 4.4, tests
testinternals.cc:1045-1061 and 2523-2541)

Modelled from the spec: `addMonths` lives in the absent `util.cc`.  Adding
N months moves the month index by N and clamps the day to the last valid
day of the target month, with the full Gregorian leap rule. -/

/-- A calendar date (the fields of `struct tm` the tests exercise). -/
structure Tm where
  year : Int
  month : Int
  day : Int
deriving DecidableEq, Repr

/-- Gregorian leap year: divisible by 4, except centuries not divisible
by 400. -/
def isLeapYear (y : Int) : Bool :=
  (y % 4 == 0 && y % 100 != 0) || y % 400 == 0

/-- Last valid day of month `m` of year `y`. -/
def daysInMonth (y : Int) (m : Int) : Int :=
  if m = 2 then (if isLeapYear y then 29 else 28)
  else if m = 4 ∨ m = 6 ∨ m = 9 ∨ m = 11 then 30
  else 31

/-- Months elapsed since year 0, month 1. -/
def monthIndex (d : Tm) : Int := 12 * d.year + (d.month - 1)

/-- Modelled from the spec: `addMonths` advances the month field by `n`
(borrowing into the year, Euclidean so that negative `n` works) and then
clamps the day to the last valid day of the target month. -/
def addMonths (d : Tm) (n : Int) : Tm :=
  let t := monthIndex d + n
  let y := t.ediv 12
  let mo := t.emod 12 + 1
  ⟨y, mo, min d.day (daysInMonth y mo)⟩

/-- C6. Month arithmetic is calendar-aware: the month index advances by
exactly `n` and the day is clamped to the last valid day of the target
month; the leap rules (including the century rule) give the three pinned
vectors 2020-12-31 + 2 months = 2021-02-28, 2020-12-31 - 10 months =
2020-02-29, and 2000-02-29 + 1200 months = 2100-02-28
(testinternals.cc:1047-1060). -/
theorem claim_C6 :
    (∀ (d : Tm) (n : Int), monthIndex (addMonths d n) = monthIndex d + n
      ∧ (addMonths d n).day
          = min d.day (daysInMonth (addMonths d n).year (addMonths d n).month))
    ∧ addMonths ⟨2020, 12, 31⟩ 2 = ⟨2021, 2, 28⟩
    ∧ addMonths ⟨2020, 12, 31⟩ (-10) = ⟨2020, 2, 29⟩
    ∧ addMonths ⟨2000, 2, 29⟩ 1200 = ⟨2100, 2, 28⟩
    ∧ daysInMonth 2021 2 = 28 ∧ daysInMonth 2020 2 = 29
    ∧ daysInMonth 2000 2 = 29 ∧ daysInMonth 2100 2 = 28 := by
  refine ⟨fun d n => ⟨?_, rfl⟩, by decide, by decide, by decide,
    by decide, by decide, by decide, by decide⟩
  show 12 * ((monthIndex d + n).ediv 12) + ((monthIndex d + n).emod 12 + 1 - 1)
    = monthIndex d + n
  have h : 12 * ((monthIndex d + n).ediv 12) + (monthIndex d + n).emod 12
      = monthIndex d + n := Int.ediv_add_emod _ 12
  omega

/-! ## SLIP framing (spec section 6, tests testinternals.cc:1492-1554)

Modelled from the spec: the SLIP codec implementation is absent from the
snapshot.  Framing: end byte 0xC0 around the escaped payload, with
0xC0 → 0xDB 0xDC and 0xDB → 0xDB 0xDD.  Unframing scans for the
terminating end byte, decoding escapes; leading (stray) 0xC0 bytes in
front of the payload are skipped, and a frame whose end byte never
arrives yields `frame_length = 0` with an empty payload.  Bytes are
`Nat`s (only values < 256 occur in frames the encoder produces). -/

/-- The SLIP escape expansion of a payload. -/
def slipEscape : List Nat → List Nat
  | [] => []
  | b :: rest =>
    (if b = 192 then [219, 220] else if b = 219 then [219, 221] else [b])
      ++ slipEscape rest

/-- Modelled from the spec: `addSlipFraming` — end byte, escaped payload,
end byte (the framed bytes are appended to the output vector; the model
returns just this frame). -/
def addSlipFraming (xs : List Nat) : List Nat := 192 :: (slipEscape xs ++ [192])

/-- The unframing scan: remaining input, decoded payload so far
(reversed), bytes consumed so far.  A 0xC0 with empty payload is a stray
start/end byte and is skipped; a 0xC0 after payload completes the frame;
0xDB consumes the following escape byte; input running out means the
frame is incomplete: `(0, [])`. -/
def removeSlipLoop : List Nat → List Nat → Nat → Nat × List Nat
  | [], _, _ => (0, [])
  | b :: rest, acc, i =>
    if b = 192 then
      if acc = [] then removeSlipLoop rest [] (i + 1)
      else (i + 1, acc.reverse)
    else if b = 219 then
      match rest with
      | [] => (0, [])
      | d :: rest2 =>
        removeSlipLoop rest2
          ((if d = 220 then 192 else if d = 221 then 219 else d) :: acc)
          (i + 2)
    else removeSlipLoop rest (b :: acc) (i + 1)

/-- Modelled from the spec: `removeSlipFraming` returns
(frame_length, decoded frame). -/
def removeSlipFraming (xs : List Nat) : Nat × List Nat :=
  removeSlipLoop xs [] 0

lemma removeSlipLoop_escaped (x : List Nat) :
    ∀ (acc : List Nat) (i : Nat), acc ≠ [] ∨ x ≠ [] →
      removeSlipLoop (slipEscape x ++ [192]) acc i
        = (i + (slipEscape x).length + 1, acc.reverse ++ x) := by
  induction x with
  | nil =>
    intro acc i h
    have hacc : acc ≠ [] := by
      rcases h with h | h
      · exact h
      · exact absurd rfl h
    simp [slipEscape, removeSlipLoop, hacc]
  | cons b rest ih =>
    intro acc i h
    by_cases hb1 : b = 192
    · subst hb1
      have := ih (192 :: acc) (i + 2) (Or.inl (by simp))
      simp [slipEscape, removeSlipLoop, this]
      omega
    · by_cases hb2 : b = 219
      · subst hb2
        have := ih (219 :: acc) (i + 2) (Or.inl (by simp))
        simp [slipEscape, removeSlipLoop, hb1, this]
        omega
      · have := ih (b :: acc) (i + 1) (Or.inl (by simp))
        rw [removeSlipLoop.eq_def]
        simp [slipEscape, hb1, hb2, this]
        omega

/-- Counterexample to C8 as stated: framing the empty byte sequence gives
`C0 C0`, which the unframer treats as a run of stray end bytes — an
incomplete frame with `frame_length = 0` rather than the full framed
length 2 — so the round-trip law fails at `x = []`. -/
theorem claim_C8_counterexample :
    removeSlipFraming (addSlipFraming []) = (0, [])
      ∧ addSlipFraming [] = [192, 192]
      ∧ removeSlipFraming (addSlipFraming [])
          ≠ ((addSlipFraming []).length, ([] : List Nat)) := by
  decide

/-- C8 (amended).  For every non-empty byte sequence `x`,
`removeSlipFraming (addSlipFraming x)` recovers `x` and reports a
consumed `frame_length` equal to the full framed length. -/
theorem claim_C8_amended (x : List Nat) (h : x ≠ []) :
    removeSlipFraming (addSlipFraming x) = ((addSlipFraming x).length, x) := by
  show removeSlipLoop (192 :: (slipEscape x ++ [192])) [] 0
    = ((addSlipFraming x).length, x)
  have h0 : removeSlipLoop (192 :: (slipEscape x ++ [192])) [] 0
      = removeSlipLoop (slipEscape x ++ [192]) [] 1 := by
    rw [removeSlipLoop.eq_def]
    simp
  rw [h0, removeSlipLoop_escaped x [] 1 (Or.inr h)]
  simp [addSlipFraming]
  omega

/-- Closed witness for C8 (amended) at the pinned test vector
`{1, C0, 3, 4, 5, DB}` of testinternals.cc:1494. -/
theorem claim_C8_amended_witness :
    removeSlipFraming (addSlipFraming [1, 192, 3, 4, 5, 219])
      = ((addSlipFraming [1, 192, 3, 4, 5, 219]).length,
         [1, 192, 3, 4, 5, 219]) :=
  claim_C8_amended [1, 192, 3, 4, 5, 219] (by decide)

/-- Fidelity of the SLIP model against `test_slip`
(testinternals.cc:1492-1554): the pinned escaped frame, round-trip with
full consumed length, first-frame extraction from a concatenated stream,
and the two pinned incomplete-frame cases. -/
theorem slip_fidelity :
    addSlipFraming [1, 192, 3, 4, 5, 219]
      = [192, 1, 219, 220, 3, 4, 5, 219, 221, 192]
    ∧ removeSlipFraming [192, 1, 219, 220, 3, 4, 5, 219, 221, 192]
      = (10, [1, 192, 3, 4, 5, 219])
    ∧ removeSlipFraming ([192, 1, 219, 220, 3, 4, 5, 219, 221, 192]
        ++ addSlipFraming [192, 192, 192, 1, 2, 3, 4, 5, 6, 7, 8])
      = (10, [1, 192, 3, 4, 5, 219])
    ∧ removeSlipFraming (addSlipFraming [192, 192, 192, 1, 2, 3, 4, 5, 6, 7, 8])
      = ((addSlipFraming [192, 192, 192, 1, 2, 3, 4, 5, 6, 7, 8]).length,
         [192, 192, 192, 1, 2, 3, 4, 5, 6, 7, 8])
    ∧ removeSlipFraming [192] = (0, [])
    ∧ removeSlipFraming [192, 1, 2, 3, 4, 5] = (0, []) := by
  decide

/-! ## Unit rendering (spec section 4.4, testinternals.cc:1832-1880)

Modelled from the spec: the `str()` renderers of `units.cc`.  Exponents
render in the fixed order kg, m, s, a, k, mol, cd, c with Unicode
superscripts (exponent 1 implicit), pinned by `m³s⁻¹`, `kgm²s⁻²` and
`1c` in `test_si_units_siexp`/`test_si_units_basic`; scalars render as
plain decimals below 10⁶ and as `d.dd×10ⁿ` above, pinned by `3.6×10⁶`. -/

/-- Superscript form of one character of a decimal integer. -/
def supChar (c : Char) : Char :=
  if c = '0' then '⁰' else if c = '1' then '¹' else if c = '2' then '²'
  else if c = '3' then '³' else if c = '4' then '⁴' else if c = '5' then '⁵'
  else if c = '6' then '⁶' else if c = '7' then '⁷' else if c = '8' then '⁸'
  else if c = '9' then '⁹' else if c = '-' then '⁻' else c

/-- Superscript rendering of an integer. -/
def supStr (i : Int) : String := String.mk ((toString i).data.map supChar)

/-- One dimension of the exponent rendering: nothing for 0, the bare name
for 1, the name with a superscript exponent otherwise. -/
def expPart (name : String) (v : Int) : String :=
  if v = 0 then "" else if v = 1 then name else name ++ supStr v

/-- The exponent-vector part of a unit rendering. -/
def siexpCore (e : SIExp) : String :=
  expPart "kg" e.kg ++ expPart "m" e.m ++ expPart "s" e.s ++ expPart "a" e.a
    ++ expPart "k" e.k ++ expPart "mol" e.mol ++ expPart "cd" e.cd
    ++ expPart "c" e.c ++ expPart "eur" e.currency

/-- `SIExp::str()`: an invalid vector renders as `!…-Invalid!`
(testinternals.cc:1848, 1854). -/
def SIExp.str (e : SIExp) : String :=
  if e.invalid then "!" ++ siexpCore e ++ "-Invalid!" else siexpCore e

/-- Mantissa/trailing-zero split of a positive decimal (fuel-bounded). -/
def stripZeros : Nat → Nat → Nat × Nat
  | 0, n => (n, 0)
  | fuel + 1, n =>
    if n ≠ 0 ∧ n % 10 = 0 then
      let r := stripZeros fuel (n / 10)
      (r.1, r.2 + 1)
    else (n, 0)

/-- Decimal rendering of a natural scalar: plain below 10⁶, scientific
`d.dd×10ⁿ` with superscript exponent above (3600000 → `3.6×10⁶`). -/
def natSci (n : Nat) : String :=
  if n < 1000000 then toString n
  else
    let r := stripZeros 40 n
    let ds := (toString r.1).data
    let e : Int := (r.2 : Int) + ds.length - 1
    let mantissa :=
      match ds with
      | [] => ""
      | c :: rest =>
        if rest = [] then String.mk [c] else String.mk (c :: '.' :: rest)
    mantissa ++ "×10" ++ supStr e

/-- Scalar rendering of a rational (only integral scalars occur in the
pinned diagnostics). -/
def scalarStr (q : Rat) : String :=
  if q.den = 1 then
    if q.num < 0 then "-" ++ natSci q.num.natAbs else natSci q.num.natAbs
  else
    (if q.num < 0 then "-" else "")
      ++ natSci q.num.natAbs ++ "/" ++ natSci q.den

/-- `SIUnit::str()`: scalar then exponents (testinternals.cc:1863 pins
`3.6×10⁶kgm²s⁻²` for kWh and 1874 pins `1c` for Celsius). -/
def SIUnit.str (u : SIUnit) : String := scalarStr u.scalar ++ u.exp.str

/-- The display name of a quantity. -/
def quantityStr : Quantity → String
  | .Energy => "Energy"
  | .Power => "Power"
  | .Volume => "Volume"
  | .Flow => "Flow"
  | .Temperature => "Temperature"
  | .Time => "Time"
  | .Length => "Length"
  | .Mass => "Mass"
  | .Amperage => "Amperage"
  | .Voltage => "Voltage"
  | .Pressure => "Pressure"
  | .Frequency => "Frequency"
  | .Angle => "Angle"
  | .Dimensionless => "Dimensionless"
  | .AmountOfSubstance => "AmountOfSubstance"
  | .LuminousIntensity => "LuminousIntensity"
  | .RelativeHumidity => "RelativeHumidity"
  | .HCA => "HCA"
  | .Apparent_Energy => "Apparent_Energy"
  | .Reactive_Energy => "Reactive_Energy"
  | .PointInTime => "PointInTime"
  | .Text => "Text"

/-- Fidelity of the renderer against the pinned strings of
`test_si_units_siexp` and `test_si_units_basic`. -/
theorem si_render_fidelity :
    SIExp.str { SIExp.zero with s := -1, m := 3 } = "m³s⁻¹"
    ∧ SIExp.str { SIExp.zero with s := 1 } = "s"
    ∧ SIExp.str (SIExp.mul { SIExp.zero with s := -1, m := 3 }
        { SIExp.zero with s := 1 }) = "m³"
    ∧ SIExp.str (SIExp.mul { SIExp.zero with s := 127 }
        { SIExp.zero with s := 1 }) = "!s⁻¹²⁸-Invalid!"
    ∧ SIExp.str (SIExp.div { SIExp.zero with s := -1, m := 3 }
        { SIExp.zero with s := -1, m := 3 }) = ""
    ∧ SIUnit.str siKWH = "3.6×10⁶kgm²s⁻²"
    ∧ SIUnit.str siC = "1c" := by
  decide

/-! ## Formula engine fragment (spec section 4.5, tests
testinternals.cc:2649-2665)

Modelled from the spec: the formula engine (`formula.cc`) is absent.
This is the fragment the pinned diagnostic exercises: a lexer producing
position-annotated tokens (numbers, unit suffixes, `+ - * /`), the
`expr := term (('+'|'-') term)*`, `term := factor (('*'|'/') factor)*`,
`factor := number unit` levels of the recursive-descent parser, and the
type check on addition: the operands must be convertible (via
`SIUnit.convertTo`), otherwise parsing fails with a `Cannot add
[unit|Quantity|expansion] to …!` diagnostic followed by the source line
and a caret line under the offending operator's span. -/

/-- Token kinds of the formula lexer fragment. -/
inductive TokKind where
  | num (v : Nat)
  | ident (s : String)
  | plus | minus | times | divide | lparen | rparen
deriving DecidableEq, Repr

/-- A token with its source position and length. -/
structure Tok where
  kind : TokKind
  start : Nat
  len : Nat
deriving DecidableEq, Repr

/-- Split a leading run of digits. -/
def takeDigits : List Char → List Char × List Char
  | [] => ([], [])
  | c :: rest =>
    if c.isDigit then
      let r := takeDigits rest
      (c :: r.1, r.2)
    else ([], c :: rest)

/-- Split a leading identifier (letters, digits, underscores). -/
def takeIdent : List Char → List Char × List Char
  | [] => ([], [])
  | c :: rest =>
    if c.isAlpha || c.isDigit || c = '_' then
      let r := takeIdent rest
      (c :: r.1, r.2)
    else ([], c :: rest)

/-- Decimal digits to a natural number. -/
def digitsToNat (ds : List Char) : Nat :=
  ds.foldl (fun acc c => acc * 10 + (c.toNat - 48)) 0

/-- The fuel-bounded lexer loop: input characters and current position. -/
def lexGo : Nat → List Char → Nat → Option (List Tok)
  | 0, _, _ => none
  | _, [], _ => some []
  | fuel + 1, c :: rest, pos =>
    if c = ' ' then lexGo fuel rest (pos + 1)
    else if c = '+' then (lexGo fuel rest (pos + 1)).map (⟨.plus, pos, 1⟩ :: ·)
    else if c = '-' then (lexGo fuel rest (pos + 1)).map (⟨.minus, pos, 1⟩ :: ·)
    else if c = '*' then (lexGo fuel rest (pos + 1)).map (⟨.times, pos, 1⟩ :: ·)
    else if c = '/' then (lexGo fuel rest (pos + 1)).map (⟨.divide, pos, 1⟩ :: ·)
    else if c = '(' then (lexGo fuel rest (pos + 1)).map (⟨.lparen, pos, 1⟩ :: ·)
    else if c = ')' then (lexGo fuel rest (pos + 1)).map (⟨.rparen, pos, 1⟩ :: ·)
    else if c.isDigit then
      let r := takeDigits (c :: rest)
      (lexGo fuel r.2 (pos + r.1.length)).map
        (⟨.num (digitsToNat r.1), pos, r.1.length⟩ :: ·)
    else if c.isAlpha then
      let r := takeIdent (c :: rest)
      (lexGo fuel r.2 (pos + r.1.length)).map
        (⟨.ident (String.mk r.1), pos, r.1.length⟩ :: ·)
    else none

/-- Tokenize a formula source string. -/
def lex (src : String) : Option (List Tok) :=
  lexGo (src.data.length + 1) src.data 0

/-- The unit-suffix table of the fragment (lower-case names, as
`extractUnit` produces them). -/
def unitTable : List (String × SIUnit) :=
  [("kwh", siKWH), ("mj", siMJ), ("gj", siGJ), ("kvarh", siKVARH),
   ("kvah", siKVAH), ("kw", siKW), ("c", siC), ("k", siK), ("f", siF),
   ("counter", ⟨.Dimensionless, 1, SIExp.zero⟩)]

/-- Look up a unit suffix. -/
def lookupUnit (s : String) : Option SIUnit :=
  (unitTable.find? fun p => p.1 == s).map (·.2)

/-- A typed formula node of the fragment: its SIUnit and the unit name
used in diagnostics. -/
structure FNode where
  siunit : SIUnit
  uname : String
deriving DecidableEq, Repr

/-- Convertibility as the addition type check uses it. -/
def canConvertSI (a b : SIUnit) : Bool := (SIUnit.convertTo a 0 b 0).1

/-- Reverse lookup of a quantity from an exponent vector (unknown vectors
are Dimensionless, spec section 4.5). -/
def quantityOfExp (e : SIExp) : Quantity :=
  if e = expEnergy then .Energy
  else if e = { SIExp.zero with kg := 1, m := 2, s := -3 } then .Power
  else .Dimensionless

/-- Unit of a product node. -/
def mulUnits (a b : SIUnit) : SIUnit :=
  ⟨quantityOfExp (a.exp.mul b.exp), a.scalar * b.scalar, a.exp.mul b.exp⟩

/-- Unit of a quotient node. -/
def divUnits (a b : SIUnit) : SIUnit :=
  ⟨quantityOfExp (a.exp.div b.exp), a.scalar / b.scalar, a.exp.div b.exp⟩

/-- The `[name|Quantity|expansion]` part of a diagnostic. -/
def unitInfo (n : FNode) : String :=
  "[" ++ n.uname ++ "|" ++ quantityStr n.siunit.quantity ++ "|"
    ++ n.siunit.str ++ "]"

/-- The pinned addition diagnostic: message line, source line, and a
caret line from the operator's start through the right operand's number
token. -/
def addErrorMessage (src : String) (lhs rhs : FNode)
    (opStart numEnd : Nat) : String :=
  "Cannot add " ++ unitInfo lhs ++ " to " ++ unitInfo rhs ++ "!\n"
    ++ src ++ "\n" ++ String.mk (List.replicate opStart ' ') ++ "^"
    ++ String.mk (List.replicate (numEnd - opStart) '~') ++ "\n"

/-- `factor := number unit`.  Returns the node, the source position just
after the number token (used for diagnostic spans), and the rest. -/
def parseFactor : List Tok → Except String ((FNode × Nat) × List Tok)
  | ⟨.num _, s, l⟩ :: ⟨.ident u, _, _⟩ :: rest2 =>
    match lookupUnit u with
    | some si => .ok ((⟨si, u⟩, s + l), rest2)
    | none => .error "Unknown unit!\n"
  | ⟨.num _, s, l⟩ :: rest =>
    .ok ((⟨⟨.Dimensionless, 1, SIExp.zero⟩, "counter"⟩, s + l), rest)
  | _ => .error "Expected number!\n"

/-- `term` tail: `('*'|'/') factor` repetitions. -/
def parseTermTail : Nat → (FNode × Nat) → List Tok →
    Except String ((FNode × Nat) × List Tok)
  | 0, _, _ => .error "Out of fuel!\n"
  | fuel + 1, left, toks =>
    match toks with
    | ⟨.times, _, _⟩ :: rest =>
      match parseFactor rest with
      | .error e => .error e
      | .ok (right, rest2) =>
        parseTermTail fuel
          (⟨mulUnits left.1.siunit right.1.siunit, left.1.uname⟩, left.2) rest2
    | ⟨.divide, _, _⟩ :: rest =>
      match parseFactor rest with
      | .error e => .error e
      | .ok (right, rest2) =>
        parseTermTail fuel
          (⟨divUnits left.1.siunit right.1.siunit, left.1.uname⟩, left.2) rest2
    | _ => .ok (left, toks)

/-- `term := factor (('*'|'/') factor)*`. -/
def parseTerm (fuel : Nat) (toks : List Tok) :
    Except String ((FNode × Nat) × List Tok) :=
  match parseFactor toks with
  | .error e => .error e
  | .ok (left, rest) => parseTermTail fuel left rest

/-- `expr` tail: `('+'|'-') term` repetitions with the convertibility
type check; a failing check aborts the parse with the diagnostic. -/
def parseExprTail : Nat → String → (FNode × Nat) → List Tok →
    Except String ((FNode × Nat) × List Tok)
  | 0, _, _, _ => .error "Out of fuel!\n"
  | fuel + 1, src, left, toks =>
    match toks with
    | ⟨.plus, ops, _⟩ :: rest =>
      match parseTerm fuel rest with
      | .error e => .error e
      | .ok (right, rest2) =>
        if canConvertSI right.1.siunit left.1.siunit then
          parseExprTail fuel src (left.1, right.2) rest2
        else .error (addErrorMessage src left.1 right.1 ops right.2)
    | ⟨.minus, ops, _⟩ :: rest =>
      match parseTerm fuel rest with
      | .error e => .error e
      | .ok (right, rest2) =>
        if canConvertSI right.1.siunit left.1.siunit then
          parseExprTail fuel src (left.1, right.2) rest2
        else .error (addErrorMessage src left.1 right.1 ops right.2)
    | _ => .ok (left, toks)

/-- `expr := term (('+'|'-') term)*`. -/
def parseExpr (fuel : Nat) (src : String) (toks : List Tok) :
    Except String ((FNode × Nat) × List Tok) :=
  match parseTerm fuel toks with
  | .error e => .error e
  | .ok (left, rest) => parseExprTail fuel src left rest

/-- The outcome of `FormulaImplementation::parse`: the returned flag and
the `errors()` string. -/
structure ParseOutcome where
  ok : Bool
  errors : String
deriving DecidableEq, Repr

/-- Modelled from the spec: `FormulaImplementation::parse` on the
fragment — tokenize, parse, and report accumulated errors. -/
def parseFormula (src : String) : ParseOutcome :=
  match lex src with
  | none => ⟨false, "Could not tokenize!\n"⟩
  | some toks =>
    match parseExpr (toks.length + 1) src toks with
    | .error e => ⟨false, e⟩
    | .ok (_, []) => ⟨true, ""⟩
    | .ok (_, _ :: _) => ⟨false, "Trailing tokens!\n"⟩

/-- C9.  Parsing `10 kwh + 20 kw` fails at parse time and produces
exactly the diagnostic pinned by testinternals.cc:2658-2662: the
`Cannot add` line with both units' name, quantity and SI expansion, the
source line, and the caret line under the `+` operator's span. -/
theorem claim_C9 :
    parseFormula "10 kwh + 20 kw"
      = ⟨false,
         "Cannot add [kwh|Energy|3.6×10⁶kgm²s⁻²] to [kw|Power|1000kgm²s⁻³]!\n10 kwh + 20 kw\n       ^~~~~\n"⟩ := by
  decide

/-- Fidelity of the formula fragment on accepted inputs: convertible
additions (including the kWh/kvarh cross rule the sqrt test relies on)
parse successfully with no diagnostics. -/
theorem formula_accept_fidelity :
    parseFormula "10 kwh + 100 kwh" = ⟨true, ""⟩
    ∧ parseFormula "2 kwh + 3 kvarh" = ⟨true, ""⟩
    ∧ parseFormula "10 gj + 10 mj" = ⟨true, ""⟩ := by
  decide

end Wmbus
